import Mathlib

/-!
Verification of the fincommerce constraint-aware retrieval and ranking core.

The definitions below are a shallow embedding of the query-time pipeline:

* `VectorDB.searchCore` / `VectorDB.search` embed `VectorDB.search`
  (`src/retrieval/search_engine.py`, lines 164-277): the constraint-filtered
  vector query, the strict-substring narrow fallback over its results, and the
  wide full-catalog fallback via `scroll`.
* `finSearch` embeds `FinSearchEngine.search` (same file, lines 344-376).
* `Ranker.rank` embeds `Ranker.rank` (`src/processing/ranker.py`, lines 36-121)
  together with `ScoringWeights` and `_generate_explanation`.
* `ProductResult.ofRecord` embeds the `ProductResult(**r)` conversion performed
  by the `/search` endpoint (`api/main.py`, line 245; schema in
  `api/schemas/query.py`).

Python floats are modelled as exact rationals (`ℚ`); Python's `round(x, n)`
is modelled by round-half-to-even on rationals; Python strings are modelled
by Lean strings with explicit char-level helpers for `strip`, `lower`,
`title`, `split(';')` and substring tests.  The external Qdrant backend is
modelled by a `Db` value: a list of stored payloads plus a similarity oracle;
`query_points` filters, thresholds, sorts by similarity descending and
truncates, and `scroll` returns the stored points up to the given limit.
Python's exception channel is modelled by `Except`.
-/

/-! ### Python string primitives -/

/-- Model of Python `str.strip` on a character list: drop whitespace from both
ends. -/
def stripChars (l : List Char) : List Char :=
  ((l.dropWhile Char.isWhitespace).reverse.dropWhile Char.isWhitespace).reverse

/-- Model of Python `str.strip`. -/
def pyStrip (s : String) : String := ⟨stripChars s.data⟩

/-- Model of Python `str.lower` (ASCII case folding). -/
def pyLower (s : String) : String := ⟨s.data.map Char.toLower⟩

/-- Model of Python `str.title` on a character list: the first letter of each
maximal run of letters is upper-cased, the rest lower-cased.  The boolean
argument records whether the previous character was a letter. -/
def titleChars : Bool → List Char → List Char
  | _, [] => []
  | prevAlpha, c :: cs =>
    if c.isAlpha then
      (if prevAlpha then c.toLower else c.toUpper) :: titleChars true cs
    else
      c :: titleChars false cs

/-- Model of Python `str.title`. -/
def pyTitle (s : String) : String := ⟨titleChars false s.data⟩

/-- Model of Python's substring test `needle in hay`. -/
def containsSub (hay needle : String) : Bool :=
  hay.data.tails.any (fun t => needle.data.isPrefixOf t)

/-- Model of Python `str.split(';')`: split on every semicolon, keeping empty
pieces; the accumulator holds the current piece reversed. -/
def splitSemiAux : List Char → List Char → List (List Char)
  | [], acc => [acc.reverse]
  | c :: cs, acc =>
    if c = ';' then acc.reverse :: splitSemiAux cs []
    else splitSemiAux cs (c :: acc)

/-- Model of Python `str.split(';')` on strings. -/
def pySplitSemi (s : String) : List String :=
  (splitSemiAux s.data []).map (fun l => ⟨l⟩)

/-- Model of Python `' '.join(pieces)`. -/
def joinSpace : List String → String
  | [] => ""
  | [s] => s
  | s :: rest => s ++ " " ++ joinSpace rest

/-! ### Data model -/

/-- A stored product payload, mirroring the fields written by
`VectorDB.index_products` and read by `VectorDB.search` and `Ranker.rank`.
The `tags` field is either a list of strings or a single `;`-separated
string, matching the two cases handled at
`search_engine.py` lines 226 and 253. -/
structure Payload where
  product_id : Nat
  title : String
  description : String
  price : ℚ
  category : String
  brand : String
  rating : ℚ
  msrp : ℚ
  discount_pct : ℚ
  installment_available : Bool
  max_installments : Int
  shipping_days : Int
  budget_band : String
  tags : Sum (List String) String
deriving DecidableEq

/-- A scored search hit (Qdrant `ScoredPoint`): payload plus similarity
score. -/
structure Hit where
  payload : Payload
  score : ℚ
deriving DecidableEq

/-- Model of the external Qdrant collection: the stored points plus a
similarity oracle assigning each stored payload a score against a query
vector. -/
structure Db where
  points : List Payload
  sim : List ℚ → Payload → ℚ

/-- Model of Qdrant `query_points`: score the stored points that pass the
filter, drop those below the score threshold (when given), sort by score
descending, and truncate to `limit`. -/
def qdrantQueryPoints (db : Db) (qv : List ℚ) (flt : Payload → Bool)
    (limit : Nat) (threshold : Option ℚ) : List Hit :=
  let scored := (db.points.filter flt).map (fun p => Hit.mk p (db.sim qv p))
  let kept :=
    match threshold with
    | none => scored
    | some t => scored.filter (fun h => decide (t ≤ h.score))
  (List.mergeSort kept (fun a b => decide (b.score ≤ a.score))).take limit

/-- Model of Qdrant `scroll`: the stored points, up to `limit`, with
payloads. -/
def qdrantScroll (db : Db) (limit : Nat) : List Payload :=
  db.points.take limit

/-! ### VectorDB.search -/

/-- The literal category values treated as "no category filter"
(`search_engine.py` line 192). -/
def noFilterTokens : List String := ["", "all categories", "none", "null"]

/-- `effective_budget = max_budget if max_budget is not None else budget`
(`search_engine.py` line 184). -/
def effBudget (maxBudget budget : Option ℚ) : Option ℚ :=
  match maxBudget with
  | some b => some b
  | none => budget

/-- The backend filter built at `search_engine.py` lines 182-199: price at
most the effective budget (when present) AND exact equality of the stored
category with the title-cased, stripped category (when the category is
truthy and not one of the no-filter tokens). -/
def vectorFilter (eb : Option ℚ) (category : Option String) (p : Payload) : Bool :=
  (match eb with
   | none => true
   | some b => decide (p.price ≤ b)) &&
  (match category with
   | none => true
   | some c =>
     if c ≠ "" ∧ pyLower (pyStrip c) ∉ noFilterTokens then
       decide (p.category = pyTitle (pyStrip c))
     else true)

/-- The vector retrieval stage: `query_points` under the constraint filter
(`search_engine.py` lines 201-209). -/
def vectorStage (db : Db) (qv : List ℚ) (eb : Option ℚ)
    (category : Option String) (topK : Nat) (threshold : Option ℚ) : List Hit :=
  qdrantQueryPoints db qv (vectorFilter eb category) topK threshold

/-- `category_lc = str(category).strip().lower() if category else None`
(`search_engine.py` line 222). -/
def categoryLc (category : Option String) : Option String :=
  match category with
  | none => none
  | some c => if c = "" then none else some (pyLower (pyStrip c))

/-- The tag text built at `search_engine.py` lines 226/253:
`' '.join(tags if isinstance(tags, list) else str(tags).split(';'))`. -/
def tagsText (p : Payload) : String :=
  match p.tags with
  | Sum.inl l => joinSpace l
  | Sum.inr s => joinSpace (pySplitSemi s)

/-- The strict substring test of `search_engine.py` lines 231/258: the
lower-cased query text occurs in the lower-cased title, tag text, or
category. -/
def strictMatch (queryLc : String) (p : Payload) : Bool :=
  containsSub (pyLower p.title) queryLc ||
  containsSub (pyLower (tagsText p)) queryLc ||
  containsSub (pyLower p.category) queryLc

/-- The fallback-stage category guard of `search_engine.py` lines 229/256:
`if category_lc and cat != category_lc: continue`.  An absent or empty
(falsy) `category_lc` lets everything through; otherwise the lower-cased
stored category must equal it. -/
def catLcPass (catLc : Option String) (p : Payload) : Bool :=
  match catLc with
  | none => true
  | some cl => if cl = "" then true else decide (pyLower p.category = cl)

/-- The narrow fallback of `search_engine.py` lines 223-241: keep the hits
that pass the category guard and strict-match the query, forcing each kept
hit's score to 1.0. -/
def strictFilter (queryLc : String) (catLc : Option String)
    (hits : List Hit) : List Hit :=
  (hits.filter (fun h => catLcPass catLc h.payload && strictMatch queryLc h.payload)).map
    (fun h => Hit.mk h.payload 1)

/-- The wide fallback of `search_engine.py` lines 245-269: scroll the whole
collection (limit 10000) and keep the points that pass the category guard
and strict-match the query, each with score forced to 1.0. -/
def wideFallback (db : Db) (queryLc : String) (catLc : Option String) : List Hit :=
  ((qdrantScroll db 10000).filter
      (fun p => catLcPass catLc p && strictMatch queryLc p)).map
    (fun p => Hit.mk p 1)

/-- Embedding of `VectorDB.search` (`search_engine.py` lines 164-271).  The
invalid-vector guard at lines 178-180 returns the empty list.  When the
query text is truthy, the narrow fallback over the vector-stage output is
tried first; if it is empty, the wide fallback result is returned, either
truncated to `top_k`.  Otherwise the raw vector-stage output is returned. -/
def VectorDB.searchCore (db : Db) (vectorSize : Nat) (queryVector : List ℚ)
    (maxBudget budget : Option ℚ) (category : Option String) (topK : Nat)
    (scoreThreshold : Option ℚ) (queryText : Option String) : List Hit :=
  if queryVector = [] ∨ queryVector.length ≠ vectorSize then []
  else
    let eb := effBudget maxBudget budget
    let results := vectorStage db queryVector eb category topK scoreThreshold
    match queryText with
    | none => results
    | some qt =>
      if qt = "" then results
      else
        let queryLc := pyLower (pyStrip qt)
        let catLc := categoryLc category
        let narrow := strictFilter queryLc catLc results
        if narrow ≠ [] then narrow.take topK
        else (wideFallback db queryLc catLc).take topK

/-- Errors of the spec's taxonomy that a search call could surface through
Python's exception channel. -/
inductive SearchError where
  | invalidInput
  | retrievalUnavailable
deriving DecidableEq

/-- `VectorDB.search` with Python's exception channel made explicit.  With
the backend available (as modelled by `Db`), no branch of the source raises:
the invalid-vector branch at lines 178-180 logs and `return []`s, and the
`except` clauses at lines 272-277 only re-raise backend failures.  So every
branch yields a normal value. -/
def VectorDB.search (db : Db) (vectorSize : Nat) (queryVector : List ℚ)
    (maxBudget budget : Option ℚ) (category : Option String) (topK : Nat)
    (scoreThreshold : Option ℚ) (queryText : Option String) :
    Except SearchError (List Hit) :=
  Except.ok (VectorDB.searchCore db vectorSize queryVector maxBudget budget
    category topK scoreThreshold queryText)

/-- Embedding of `FinSearchEngine.search` (`search_engine.py` lines
344-376): empty or whitespace-only query text returns `[]` immediately;
otherwise the stripped, lower-cased query is embedded and passed to
`VectorDB.search` as both query vector and fallback text, with
`max_budget` set to the effective budget. -/
def finSearch (db : Db) (embed : String → List ℚ) (vectorSize : Nat)
    (queryText : String) (topK : Nat) (budget maxBudget : Option ℚ)
    (category : Option String) : List Hit :=
  if queryText = "" ∨ pyStrip queryText = "" then []
  else
    let qnorm := pyLower (pyStrip queryText)
    let qv := embed qnorm
    let eb := effBudget maxBudget budget
    VectorDB.searchCore db vectorSize qv eb none category topK none (some qnorm)

/-! ### Ranker -/

/-- Round-half-to-even to an integer, modelling Python's `round` on exact
values. -/
def roundHalfEven (x : ℚ) : Int :=
  if x - ⌊x⌋ < 1/2 then ⌊x⌋
  else if 1/2 < x - ⌊x⌋ then ⌊x⌋ + 1
  else if ⌊x⌋ % 2 = 0 then ⌊x⌋ else ⌊x⌋ + 1

/-- Model of Python `round(x, n)`. -/
def roundTo (n : Nat) (x : ℚ) : ℚ :=
  (roundHalfEven (x * 10 ^ n) : ℚ) / 10 ^ n

/-- Model of Python `round(x, 4)` as used throughout `Ranker.rank`. -/
def round4 (x : ℚ) : ℚ := roundTo 4 x

/-- `ScoringWeights` (`ranker.py` lines 9-19), with the default 60/30/10
formula. -/
structure ScoringWeights where
  semantic : ℚ
  budget_fit : ℚ
  price_advantage : ℚ
deriving DecidableEq

/-- The default `ScoringWeights()` (semantic 0.6, budget_fit 0.3,
price_advantage 0.1). -/
def defaultWeights : ScoringWeights := ⟨3/5, 3/10, 1/10⟩

/-- `ScoringWeights.validate` (`ranker.py` lines 16-19): the three weights
sum to 1.0 within 0.01. -/
def ScoringWeights.validate (w : ScoringWeights) : Bool :=
  decide (|w.semantic + w.budget_fit + w.price_advantage - 1| < 1/100)

/-- `budget_fit = 1.0 if price <= user_budget else 0.5` (`ranker.py`
line 70). -/
def budgetFit (price userBudget : ℚ) : ℚ :=
  if price ≤ userBudget then 1 else 1/2

/-- `price_advantage = max(0, (user_budget - price) / user_budget) if
user_budget > 0 else 0` (`ranker.py` line 71). -/
def priceAdvantage (price userBudget : ℚ) : ℚ :=
  if 0 < userBudget then max 0 ((userBudget - price) / userBudget) else 0

/-- The composite scoring formula of `ranker.py` lines 74-78. -/
def compositeScore (w : ScoringWeights) (s b p : ℚ) : ℚ :=
  w.semantic * s + w.budget_fit * b + w.price_advantage * p

/-- The unrounded composite score of a hit, exactly as computed at
`ranker.py` lines 66-78 before the `min_score` comparison. -/
def rawComposite (w : ScoringWeights) (h : Hit) (userBudget : ℚ) : ℚ :=
  compositeScore w h.score (budgetFit h.payload.price userBudget)
    (priceAdvantage h.payload.price userBudget)

/-- The three explanation shapes produced by `Ranker._generate_explanation`
(`ranker.py` lines 123-146), carrying the rounded numbers interpolated into
the message. -/
inductive Explanation where
  | underBudget (matchPct savings : ℚ)
  | exactFit (matchPct : ℚ)
  | overBudget (matchPct overage : ℚ)
deriving DecidableEq

/-- Embedding of `Ranker._generate_explanation`. -/
def generateExplanation (semanticScore price userBudget : ℚ) : Explanation :=
  let matchPct := roundTo 1 (semanticScore * 100)
  if price ≤ userBudget then
    let savings := roundTo 2 (userBudget - price)
    if 0 < savings then Explanation.underBudget matchPct savings
    else Explanation.exactFit matchPct
  else Explanation.overBudget matchPct (roundTo 2 (price - userBudget))

/-- The ranked-result record appended at `ranker.py` lines 92-111.  Field
names follow the dictionary keys the code actually writes: in particular the
budget-fit and price-advantage values are stored under the keys
`budget_fit` and `price_advantage`. -/
structure RankedRecord where
  product_id : Nat
  title : String
  description : String
  price : ℚ
  category : String
  brand : String
  rating : ℚ
  semantic_score : ℚ
  budget_fit : ℚ
  price_advantage : ℚ
  composite_score : ℚ
  explanation : Explanation
  msrp : ℚ
  discount_pct : ℚ
  installment_available : Bool
  max_installments : Int
  shipping_days : Int
  budget_band : String
deriving DecidableEq

/-- Build the record of `ranker.py` lines 92-111 for one hit:
`semantic_score`, `price_advantage` and `composite_score` are rounded to 4
decimal places; `budget_fit` is stored unrounded. -/
def mkRecord (w : ScoringWeights) (h : Hit) (userBudget : ℚ) : RankedRecord :=
  ⟨h.payload.product_id, h.payload.title, h.payload.description,
   h.payload.price, h.payload.category, h.payload.brand, h.payload.rating,
   round4 h.score, budgetFit h.payload.price userBudget,
   round4 (priceAdvantage h.payload.price userBudget),
   round4 (rawComposite w h userBudget),
   generateExplanation h.score h.payload.price userBudget,
   h.payload.msrp, h.payload.discount_pct, h.payload.installment_available,
   h.payload.max_installments, h.payload.shipping_days, h.payload.budget_band⟩

/-- Embedding of `Ranker.rank` (`ranker.py` lines 36-121): drop hits whose
unrounded composite is below `min_score`, build the records, and stable-sort
by the (rounded) `composite_score` key descending, as Python's
`list.sort(key=..., reverse=True)` does. -/
def Ranker.rank (w : ScoringWeights) (searchHits : List Hit)
    (userBudget : ℚ) (minScore : ℚ) : List RankedRecord :=
  if searchHits = [] then []
  else
    let recs := (searchHits.filter
        (fun h => decide (minScore ≤ rawComposite w h userBudget))).map
      (fun h => mkRecord w h userBudget)
    List.mergeSort recs (fun a b => decide (b.composite_score ≤ a.composite_score))

/-! ### ProductResult -/

/-- The `ProductResult` response schema (`api/schemas/query.py` lines
37-56). -/
structure ProductResult where
  product_id : Nat
  title : String
  description : String
  price : ℚ
  category : String
  brand : Option String
  rating : Option ℚ
  semantic_score : ℚ
  budget_fit_score : Option ℚ
  price_advantage_score : Option ℚ
  composite_score : ℚ
  explanation : Explanation
  budget_band : Option String
  installment_available : Option Bool
  max_installments : Option Int
  shipping_days : Option Int
  msrp : Option ℚ
  discount_pct : Option ℚ
deriving DecidableEq

/-- The `ProductResult(**r)` conversion at `api/main.py` line 245 under
pydantic defaults: each declared field is populated from the ranked record's
key of the same name; keys without a matching field (`budget_fit`,
`price_advantage`) are ignored, and the declared optional fields
`budget_fit_score` and `price_advantage_score`, having no matching key in
the record, keep their default `None`. -/
def ProductResult.ofRecord (r : RankedRecord) : ProductResult :=
  ⟨r.product_id, r.title, r.description, r.price, r.category, some r.brand,
   some r.rating, r.semantic_score, none, none, r.composite_score,
   r.explanation, some r.budget_band, some r.installment_available,
   some r.max_installments, some r.shipping_days, some r.msrp,
   some r.discount_pct⟩

/-! ### Membership lemmas for the retrieval stages -/

/-- Every hit returned by the modelled `query_points` call is a stored point
that passes the backend filter, carrying its similarity score. -/
theorem mem_qdrantQueryPoints {db : Db} {qv : List ℚ} {flt : Payload → Bool}
    {k : Nat} {st : Option ℚ} {h : Hit}
    (hm : h ∈ qdrantQueryPoints db qv flt k st) :
    ∃ p ∈ db.points, flt p = true ∧ h = Hit.mk p (db.sim qv p) := by
  have h1 := List.mem_of_mem_take (by simpa [qdrantQueryPoints] using hm)
  rw [List.mem_mergeSort] at h1
  have h2 : h ∈ (db.points.filter flt).map (fun p => Hit.mk p (db.sim qv p)) := by
    cases st with
    | none => exact h1
    | some t => exact (List.mem_filter.mp h1).1
  obtain ⟨p, hp, rfl⟩ := List.mem_map.mp h2
  have h3 := List.mem_filter.mp hp
  exact ⟨p, h3.1, h3.2, rfl⟩

/-- Every hit emitted by the narrow fallback comes from an input hit that
passes the category guard and the strict substring test, with its score
forced to 1. -/
theorem mem_strictFilter {q : String} {cl : Option String} {hits : List Hit}
    {h : Hit} (hm : h ∈ strictFilter q cl hits) :
    ∃ h0 ∈ hits, catLcPass cl h0.payload = true ∧
      strictMatch q h0.payload = true ∧ h = Hit.mk h0.payload 1 := by
  simp only [strictFilter, List.mem_map, List.mem_filter, Bool.and_eq_true] at hm
  obtain ⟨h0, ⟨hmem, hcat, hsm⟩, rfl⟩ := hm
  exact ⟨h0, hmem, hcat, hsm, rfl⟩

/-- Every hit emitted by the wide fallback is a stored point that passes the
category guard and the strict substring test, with score 1. -/
theorem mem_wideFallback {db : Db} {q : String} {cl : Option String} {h : Hit}
    (hm : h ∈ wideFallback db q cl) :
    ∃ p ∈ db.points, catLcPass cl p = true ∧ strictMatch q p = true ∧
      h = Hit.mk p 1 := by
  simp only [wideFallback, List.mem_map, List.mem_filter, Bool.and_eq_true] at hm
  obtain ⟨p, ⟨hmem, hcat, hsm⟩, rfl⟩ := hm
  exact ⟨p, List.mem_of_mem_take (by simpa [qdrantScroll] using hmem), hcat,
    hsm, rfl⟩

/-- Every record returned by `Ranker.rank` is built from an input hit whose
unrounded composite score is at least `min_score`. -/
theorem mem_rank {w : ScoringWeights} {hits : List Hit} {budget minScore : ℚ}
    {r : RankedRecord} (hr : r ∈ Ranker.rank w hits budget minScore) :
    ∃ h ∈ hits, minScore ≤ rawComposite w h budget ∧ r = mkRecord w h budget := by
  unfold Ranker.rank at hr
  by_cases hh : hits = []
  · rw [if_pos hh] at hr; simp at hr
  · rw [if_neg hh, List.mem_mergeSort] at hr
    obtain ⟨h, hmem, rfl⟩ := List.mem_map.mp hr
    have h2 := List.mem_filter.mp hmem
    exact ⟨h, h2.1, of_decide_eq_true h2.2, rfl⟩

/-! ### Concrete fixtures

A one-item catalog used to exercise the pipeline: the item costs 1299.99,
is categorized "Electronics", and carries "laptop" in its tags but not in
its title. -/

/-- The single catalog item of the concrete scenarios. -/
def laptopItem : Payload :=
  ⟨1, "Ultra Machine 15", "High-end machine", 129999/100, "Electronics",
   "Acme", 9/2, 149999/100, 10, true, 12, 5, "premium",
   Sum.inl ["laptop", "portable"]⟩

/-- One-item collection whose similarity oracle scores every query at 0.5. -/
def laptopDb : Db := ⟨[laptopItem], fun _ _ => 1/2⟩

/-- One-item collection whose similarity oracle scores every query at 0.9. -/
def laptopDbHigh : Db := ⟨[laptopItem], fun _ _ => 9/10⟩

/-- An embedding oracle producing a 384-dimensional zero vector, matching the
`FinSearchEngine` default dimensionality. -/
def zeroEmbed : String → List ℚ := fun _ => List.replicate 384 0

/-- With a 500 budget ceiling the vector stage filters the 1299.99 item out,
the narrow fallback finds nothing, and the wide fallback returns the item
with its score forced to 1. -/
theorem searchBudget_eval :
    VectorDB.searchCore laptopDb 3 [0, 0, 0] (some 500) none none 5 none
      (some "laptop") = [Hit.mk laptopItem 1] := by
  norm_num [VectorDB.searchCore, vectorStage, qdrantQueryPoints, laptopDb,
    laptopItem, vectorFilter, effBudget, categoryLc, strictFilter, catLcPass,
    strictMatch, tagsText, joinSpace, containsSub, pyLower, pyStrip,
    stripChars, wideFallback, qdrantScroll]
  simp +decide

/-- With no constraints the vector stage returns the item and the narrow
fallback keeps it (tag match), forcing its score to 1. -/
theorem searchNoCat_eval :
    VectorDB.searchCore laptopDbHigh 3 [0, 0, 0] none none none 5 none
      (some "laptop") = [Hit.mk laptopItem 1] := by
  norm_num [VectorDB.searchCore, vectorStage, qdrantQueryPoints, laptopDbHigh,
    laptopItem, vectorFilter, effBudget, categoryLc, strictFilter, catLcPass,
    strictMatch, tagsText, joinSpace, containsSub, pyLower, pyStrip,
    stripChars, wideFallback, qdrantScroll]
  simp +decide

/-- With the category literal "none" the vector stage still returns the item
(the token disables the backend category condition), but both fallback
stages enforce `cat != "none"` and drop it, so the search returns nothing. -/
theorem searchNoneCat_eval :
    VectorDB.searchCore laptopDbHigh 3 [0, 0, 0] none none (some "none") 5
      none (some "laptop") = [] := by
  norm_num [VectorDB.searchCore, vectorStage, qdrantQueryPoints, laptopDbHigh,
    laptopItem, vectorFilter, effBudget, categoryLc, strictFilter, catLcPass,
    strictMatch, tagsText, joinSpace, containsSub, pyLower, pyStrip,
    stripChars, wideFallback, qdrantScroll, noFilterTokens]
  simp +decide

/-- End-to-end Scenario B retrieval: query "laptop", budget 500, the only
item priced 1299.99 with "laptop" in its tags is returned via the wide
fallback with score forced to 1. -/
theorem finSearchB_eval :
    finSearch laptopDb zeroEmbed 384 "laptop" 5 (some 500) none none =
      [Hit.mk laptopItem 1] := by
  norm_num [finSearch, VectorDB.searchCore, vectorStage, qdrantQueryPoints,
    laptopDb, laptopItem, zeroEmbed, vectorFilter, effBudget, categoryLc,
    strictFilter, catLcPass, strictMatch, tagsText, joinSpace, containsSub,
    pyLower, pyStrip, stripChars, wideFallback, qdrantScroll]
  simp +decide

/-- Ranking the Scenario B hit. -/
theorem rankB_eval :
    Ranker.rank defaultWeights [Hit.mk laptopItem 1] 500 0 =
      [mkRecord defaultWeights (Hit.mk laptopItem 1) 500] := by
  norm_num [Ranker.rank, rawComposite, compositeScore, budgetFit,
    priceAdvantage, defaultWeights, laptopItem]

/-! ### Claim theorems -/

/-- C1: for every non-empty query text, every hit in the final result set of
`VectorDB.search` strict-matches the trimmed, lower-cased query: its title,
tag text, or category contains the query as a case-insensitive substring.
Hence with any text supplied the result set is an exact-substring match set
or empty, and pure semantic matches without the literal substring are
discarded.  (Instantiating `qt` with the normalized text passed by
`FinSearchEngine.search` gives the pipeline-level statement.) -/
theorem searchCore_substring_policy (db : Db) (sz : Nat) (qv : List ℚ)
    (mb bu : Option ℚ) (cat : Option String) (k : Nat) (st : Option ℚ)
    (qt : String) (hqt : qt ≠ "") (h : Hit)
    (hm : h ∈ VectorDB.searchCore db sz qv mb bu cat k st (some qt)) :
    containsSub (pyLower h.payload.title) (pyLower (pyStrip qt)) = true ∨
    containsSub (pyLower (tagsText h.payload)) (pyLower (pyStrip qt)) = true ∨
    containsSub (pyLower h.payload.category) (pyLower (pyStrip qt)) = true := by
  unfold VectorDB.searchCore at hm
  by_cases hv : qv = [] ∨ qv.length ≠ sz
  · rw [if_pos hv] at hm; simp at hm
  · rw [if_neg hv] at hm
    simp only [if_neg hqt] at hm
    split at hm
    · obtain ⟨h0, _, _, hsm, rfl⟩ := mem_strictFilter (List.mem_of_mem_take hm)
      simp only [strictMatch, Bool.or_eq_true] at hsm
      tauto
    · obtain ⟨p, _, _, hsm, rfl⟩ := mem_wideFallback (List.mem_of_mem_take hm)
      simp only [strictMatch, Bool.or_eq_true] at hsm
      tauto

/-- Witness for C1: querying "laptop" against the one-item collection
returns a hit, and the theorem yields the substring property for it. -/
theorem searchCore_substring_policy_witness :
    ("laptop" ≠ "") ∧
    (containsSub (pyLower (Hit.mk laptopItem 1).payload.title)
        (pyLower (pyStrip "laptop")) = true ∨
     containsSub (pyLower (tagsText (Hit.mk laptopItem 1).payload))
        (pyLower (pyStrip "laptop")) = true ∨
     containsSub (pyLower (Hit.mk laptopItem 1).payload.category)
        (pyLower (pyStrip "laptop")) = true) :=
  ⟨by decide,
   searchCore_substring_policy laptopDbHigh 3 [0, 0, 0] none none none 5 none
     "laptop" (by decide) (Hit.mk laptopItem 1)
     (by rw [searchNoCat_eval]; exact List.mem_singleton.mpr rfl)⟩

/-- Narrow fallback under a category filter and a 2000 budget ceiling: the
item passes both and is emitted with score 1. -/
theorem narrowCat_eval :
    strictFilter "laptop" (some "electronics")
      (vectorStage laptopDbHigh [0, 0, 0] (some 2000) none 5 none) =
      [Hit.mk laptopItem 1] := by
  norm_num [vectorStage, qdrantQueryPoints, laptopDbHigh, laptopItem,
    vectorFilter, strictFilter, catLcPass, strictMatch, tagsText, joinSpace,
    containsSub, pyLower]
  simp +decide

/-- Wide fallback under a category filter: the item passes and is emitted
with score 1. -/
theorem wideCat_eval :
    wideFallback laptopDbHigh "laptop" (some "electronics") =
      [Hit.mk laptopItem 1] := by
  norm_num [wideFallback, qdrantScroll, laptopDbHigh, laptopItem, catLcPass,
    strictMatch, tagsText, joinSpace, containsSub, pyLower]
  simp +decide

/-- C2 counterexample: the wide full-catalog fallback does not apply the
price ceiling.  With budget ceiling 500, it emits (and the whole search
returns) the item priced 1299.99 > 500, refuting the claim that every
fallback candidate satisfies the price constraint. -/
theorem fallback_price_ceiling_cex :
    wideFallback laptopDb "laptop" none = [Hit.mk laptopItem 1] ∧
    VectorDB.searchCore laptopDb 3 [0, 0, 0] (some 500) none none 5 none
      (some "laptop") = [Hit.mk laptopItem 1] ∧
    ¬((Hit.mk laptopItem 1).payload.price ≤ 500) := by
  refine ⟨?_, searchBudget_eval, by norm_num [laptopItem]⟩
  norm_num [wideFallback, qdrantScroll, laptopDb, laptopItem, catLcPass,
    strictMatch, tagsText, joinSpace, containsSub, pyLower]
  simp +decide

/-- C2 amended: narrow-fallback candidates satisfy the price ceiling
(inherited from the vector stage's backend filter), and both fallback
stages enforce the category guard when a non-empty lower-cased category is
active; but the wide fallback does not apply the price ceiling (see the
counterexample). -/
theorem fallback_stage_filters (db : Db) (qv : List ℚ) (b : ℚ)
    (cat : Option String) (k : Nat) (st : Option ℚ) (qLc : String) :
    (∀ catLc h, h ∈ strictFilter qLc catLc (vectorStage db qv (some b) cat k st) →
        h.payload.price ≤ b)
    ∧ (∀ cl : String, cl ≠ "" → ∀ hits h, h ∈ strictFilter qLc (some cl) hits →
        pyLower h.payload.category = cl)
    ∧ (∀ cl : String, cl ≠ "" → ∀ h, h ∈ wideFallback db qLc (some cl) →
        pyLower h.payload.category = cl) := by
  refine ⟨?_, ?_, ?_⟩
  · intro catLc h hm
    obtain ⟨h0, hmem, _, _, rfl⟩ := mem_strictFilter hm
    obtain ⟨p, _, hflt, rfl⟩ :=
      mem_qdrantQueryPoints (by simpa [vectorStage] using hmem)
    simp only [vectorFilter, Bool.and_eq_true, decide_eq_true_eq] at hflt
    exact hflt.1
  · intro cl hcl hits h hm
    obtain ⟨h0, _, hcat, _, rfl⟩ := mem_strictFilter hm
    simp only [catLcPass, if_neg hcl, decide_eq_true_eq] at hcat
    exact hcat
  · intro cl hcl h hm
    obtain ⟨p, _, hcat, _, rfl⟩ := mem_wideFallback hm
    simp only [catLcPass, if_neg hcl, decide_eq_true_eq] at hcat
    exact hcat

/-- Witness for the amended C2: with a 2000 ceiling and category
"electronics", the narrow-fallback hit satisfies the price bound and both
fallbacks' hits match the category. -/
theorem fallback_stage_filters_witness :
    (Hit.mk laptopItem 1).payload.price ≤ 2000 ∧
    pyLower (Hit.mk laptopItem 1).payload.category = "electronics" :=
  ⟨(fallback_stage_filters laptopDbHigh [0, 0, 0] 2000 none 5 none "laptop").1
      (some "electronics") (Hit.mk laptopItem 1)
      (by rw [narrowCat_eval]; exact List.mem_singleton.mpr rfl),
   (fallback_stage_filters laptopDbHigh [0, 0, 0] 2000 none 5 none "laptop").2.2
      "electronics" (by decide) (Hit.mk laptopItem 1)
      (by rw [wideCat_eval]; exact List.mem_singleton.mpr rfl)⟩

/-- C3 (Scenario B): query "laptop" with budget 500 against the one-item
catalog (price 1299.99, "laptop" in the tags) still returns the item — the
exact-match fallback forces its similarity score to 1.0 — and ranking it
gives budget-fit 0.5 and price-advantage 0 because the price exceeds the
budget. -/
theorem scenarioB_pipeline :
    finSearch laptopDb zeroEmbed 384 "laptop" 5 (some 500) none none =
      [Hit.mk laptopItem 1] ∧
    Ranker.rank defaultWeights
        (finSearch laptopDb zeroEmbed 384 "laptop" 5 (some 500) none none)
        500 0 =
      [mkRecord defaultWeights (Hit.mk laptopItem 1) 500] ∧
    laptopItem.price = 129999/100 ∧
    (mkRecord defaultWeights (Hit.mk laptopItem 1) 500).budget_fit = 1/2 ∧
    (mkRecord defaultWeights (Hit.mk laptopItem 1) 500).price_advantage = 0 ∧
    (mkRecord defaultWeights (Hit.mk laptopItem 1) 500).semantic_score = 1 := by
  refine ⟨finSearchB_eval, ?_, by norm_num [laptopItem], ?_, ?_, ?_⟩
  · rw [finSearchB_eval]; exact rankB_eval
  · norm_num [mkRecord, budgetFit, laptopItem]
  · norm_num [mkRecord, priceAdvantage, laptopItem, round4, roundTo,
      roundHalfEven]
  · norm_num [mkRecord, round4, roundTo, roundHalfEven]

/-- C4 counterexample: a query vector of the wrong dimensionality does not
surface an `InvalidInput` (or any) error — the search returns the ordinary
value `[]`. -/
theorem invalid_vector_no_error_cex :
    VectorDB.search laptopDb 384 [1] none none none 5 none none =
      Except.ok [] ∧
    VectorDB.search laptopDb 384 [1] none none none 5 none none ≠
      Except.error SearchError.invalidInput := by
  have h : VectorDB.search laptopDb 384 [1] none none none 5 none none =
      Except.ok [] := by
    unfold VectorDB.search VectorDB.searchCore
    norm_num
  exact ⟨h, by rw [h]; simp⟩

/-- C4 amended: for every query vector that is empty or whose length differs
from the configured dimensionality, `VectorDB.search` returns the normal
value `[]` — for every backend state alike, so the backend is never
queried — and surfaces no error. -/
theorem invalid_vector_returns_empty (db : Db) (sz : Nat) (qv : List ℚ)
    (mb bu : Option ℚ) (cat : Option String) (k : Nat) (st : Option ℚ)
    (qtext : Option String) (hv : qv = [] ∨ qv.length ≠ sz) :
    VectorDB.search db sz qv mb bu cat k st qtext = Except.ok [] := by
  unfold VectorDB.search VectorDB.searchCore
  rw [if_pos hv]

/-- Witness for the amended C4 at a concrete wrong-length vector. -/
theorem invalid_vector_returns_empty_witness :
    VectorDB.search laptopDbHigh 3 [1, 2] none none none 5 none
      (some "laptop") = Except.ok [] :=
  invalid_vector_returns_empty laptopDbHigh 3 [1, 2] none none none 5 none
    (some "laptop") (Or.inr (by norm_num))

/-- C5 counterexample: the category literal "none" is NOT treated as "no
category filter" by the fallback stages.  With category "none" the search
returns nothing, while with no category it returns the tag-matched item:
the behaviour differs, refuting "in every retrieval stage". -/
theorem category_none_token_cex :
    VectorDB.searchCore laptopDbHigh 3 [0, 0, 0] none none (some "none") 5
      none (some "laptop") = [] ∧
    VectorDB.searchCore laptopDbHigh 3 [0, 0, 0] none none none 5 none
      (some "laptop") = [Hit.mk laptopItem 1] ∧
    ([] : List Hit) ≠ [Hit.mk laptopItem 1] :=
  ⟨searchNoneCat_eval, searchNoCat_eval, by simp⟩

/-- C5 amended: the no-filter tokens ("", "all categories", "none", "null",
case-insensitively after trimming) are honoured by the vector stage, whose
backend filter is the same as with no category; the fallback stages instead
enforce any non-empty trimmed category literally (see the counterexample). -/
theorem vectorStage_no_filter_tokens (db : Db) (qv : List ℚ) (eb : Option ℚ)
    (k : Nat) (st : Option ℚ) (c : String)
    (hc : pyLower (pyStrip c) ∈ noFilterTokens) :
    vectorStage db qv eb (some c) k st = vectorStage db qv eb none k st := by
  unfold vectorStage
  have hf : vectorFilter eb (some c) = vectorFilter eb none := by
    funext p
    simp only [vectorFilter]
    rw [if_neg (fun hand => hand.2 hc)]
  rw [hf]

/-- Witness for the amended C5 at the literal "All Categories". -/
theorem vectorStage_no_filter_tokens_witness :
    pyLower (pyStrip " All Categories ") ∈ noFilterTokens ∧
    vectorStage laptopDbHigh [0, 0, 0] none (some " All Categories ") 5 none =
      vectorStage laptopDbHigh [0, 0, 0] none none 5 none :=
  ⟨by decide,
   vectorStage_no_filter_tokens laptopDbHigh [0, 0, 0] none 5 none
     " All Categories " (by decide)⟩

/-- C9 counterexample: for a whitespace-only query the engine does not
return the raw vector-stage output — it returns `[]` without running the
vector stage, even when the vector stage would have produced a hit. -/
theorem empty_query_not_vector_output_cex :
    finSearch laptopDbHigh (fun _ => [0, 0, 0]) 3 " " 5 none none none = [] ∧
    vectorStage laptopDbHigh [0, 0, 0] none none 5 none =
      [Hit.mk laptopItem (9/10)] ∧
    finSearch laptopDbHigh (fun _ => [0, 0, 0]) 3 " " 5 none none none ≠
      vectorStage laptopDbHigh [0, 0, 0] none none 5 none := by
  have h1 : finSearch laptopDbHigh (fun _ => [0, 0, 0]) 3 " " 5 none none
      none = [] := by
    unfold finSearch
    rw [if_pos (Or.inr (by decide))]
  have h2 : vectorStage laptopDbHigh [0, 0, 0] none none 5 none =
      [Hit.mk laptopItem (9/10)] := by
    norm_num [vectorStage, qdrantQueryPoints, laptopDbHigh, laptopItem,
      vectorFilter]
  exact ⟨h1, h2, by rw [h1, h2]; simp⟩

/-- C9 amended: for every query whose text is empty or whitespace-only, the
engine short-circuits and returns `[]`: the vector stage and both fallback
stages are all skipped. -/
theorem empty_query_returns_nil (db : Db) (embed : String → List ℚ)
    (sz : Nat) (qt : String) (k : Nat) (b mb : Option ℚ)
    (cat : Option String) (hq : pyStrip qt = "") :
    finSearch db embed sz qt k b mb cat = [] := by
  unfold finSearch
  rw [if_pos (Or.inr hq)]

/-- Witness for the amended C9 at the whitespace query. -/
theorem empty_query_returns_nil_witness :
    finSearch laptopDbHigh zeroEmbed 384 "  " 5 (some 500) none none = [] :=
  empty_query_returns_nil laptopDbHigh zeroEmbed 384 "  " 5 (some 500) none
    none (by decide)

/-- A second catalog item, priced within a 1000 budget. -/
def budgetItem : Payload :=
  ⟨2, "Test Laptop", "A machine", 800, "Electronics", "Acme", 4, 960,
   167/10, false, 0, 5, "budget", Sum.inr "test;laptop"⟩

/-- A hit on `budgetItem` with semantic score 0.8. -/
def hitC6 : Hit := ⟨budgetItem, 4/5⟩

/-- C6 (code bug): for an in-budget item the ranker computes the budget-fit
value 1.0, but stores it under the record key `budget_fit`; the response
schema's `budget_fit_score` and `price_advantage_score` fields therefore
stay `None` after `ProductResult(**r)`, instead of carrying 1.0/0.5 and the
price-advantage value as the claim (and the repository's own tests and
schema) require. -/
theorem budget_fit_score_field_is_none :
    budgetItem.price ≤ 1000 ∧
    (mkRecord defaultWeights hitC6 1000).budget_fit = 1 ∧
    (ProductResult.ofRecord
        (mkRecord defaultWeights hitC6 1000)).budget_fit_score = none ∧
    (ProductResult.ofRecord
        (mkRecord defaultWeights hitC6 1000)).price_advantage_score = none := by
  refine ⟨by norm_num [budgetItem], ?_, rfl, rfl⟩
  norm_num [mkRecord, budgetFit, budgetItem, hitC6]

/-- C7: the ranker's output is sorted by the record's composite score
descending; every output record comes from an input hit whose unrounded
composite score is at least `min_score`; and the sort is stable: any
already-sorted sublist of the pre-sort (filtered, mapped) list survives as
a sublist of the output. -/
theorem rank_sorted_threshold_stable (w : ScoringWeights) (hits : List Hit)
    (budget minScore : ℚ) :
    (Ranker.rank w hits budget minScore).Pairwise
        (fun a b => b.composite_score ≤ a.composite_score)
    ∧ (∀ r ∈ Ranker.rank w hits budget minScore,
        ∃ h ∈ hits, minScore ≤ rawComposite w h budget ∧
          r = mkRecord w h budget)
    ∧ (∀ c : List RankedRecord,
        c.Pairwise (fun a b => b.composite_score ≤ a.composite_score) →
        List.Sublist c ((hits.filter
            (fun h => decide (minScore ≤ rawComposite w h budget))).map
            (fun h => mkRecord w h budget)) →
        List.Sublist c (Ranker.rank w hits budget minScore)) := by
  have htrans : ∀ (a b c : RankedRecord),
      (fun a b : RankedRecord =>
        decide (b.composite_score ≤ a.composite_score)) a b →
      (fun a b : RankedRecord =>
        decide (b.composite_score ≤ a.composite_score)) b c →
      (fun a b : RankedRecord =>
        decide (b.composite_score ≤ a.composite_score)) a c := by
    intro a b c hab hbc
    simp only [decide_eq_true_eq] at *
    exact le_trans hbc hab
  have htotal : ∀ (a b : RankedRecord),
      (fun a b : RankedRecord =>
        decide (b.composite_score ≤ a.composite_score)) a b ||
      (fun a b : RankedRecord =>
        decide (b.composite_score ≤ a.composite_score)) b a := by
    intro a b
    simp only [Bool.or_eq_true, decide_eq_true_eq]
    exact le_total _ _
  refine ⟨?_, fun r hr => mem_rank hr, ?_⟩
  · unfold Ranker.rank
    by_cases hh : hits = []
    · rw [if_pos hh]; exact List.Pairwise.nil
    · rw [if_neg hh]
      exact (List.sorted_mergeSort htrans htotal _).imp
        (fun hab => of_decide_eq_true hab)
  · intro c hc hsub
    unfold Ranker.rank
    by_cases hh : hits = []
    · subst hh
      simp only [if_pos]
      simpa using hsub
    · rw [if_neg hh]
      exact List.sublist_mergeSort htrans htotal
        (hc.imp (fun hab => decide_eq_true hab)) hsub

/-- A hit on `budgetItem` with semantic score 0.7, used to exercise the
ranker theorems. -/
def hitC7 : Hit := ⟨budgetItem, 7/10⟩

/-- Ranking the single `hitC7` keeps it (composite above 0). -/
theorem rank7_eval :
    Ranker.rank defaultWeights [hitC7] 1000 0 =
      [mkRecord defaultWeights hitC7 1000] := by
  norm_num [Ranker.rank, rawComposite, compositeScore, budgetFit,
    priceAdvantage, defaultWeights, budgetItem, hitC7]

/-- Witness for C7: the record returned for `hitC7` comes from a hit of the
input list whose unrounded composite is at least the threshold. -/
theorem rank_sorted_threshold_stable_witness :
    ∃ h ∈ [hitC7], (0 : ℚ) ≤ rawComposite defaultWeights h 1000 ∧
      mkRecord defaultWeights hitC7 1000 = mkRecord defaultWeights h 1000 :=
  (rank_sorted_threshold_stable defaultWeights [hitC7] 1000 0).2.1
    (mkRecord defaultWeights hitC7 1000)
    (by rw [rank7_eval]; exact List.mem_singleton.mpr rfl)

/-- C8: with non-negative weights summing to 1 and all three components in
[0, 1], the composite score is a convex combination and lies in [0, 1]. -/
theorem composite_convex_combination (w : ScoringWeights) (s b p : ℚ)
    (hw1 : 0 ≤ w.semantic) (hw2 : 0 ≤ w.budget_fit)
    (hw3 : 0 ≤ w.price_advantage)
    (hsum : w.semantic + w.budget_fit + w.price_advantage = 1)
    (hs0 : 0 ≤ s) (hs1 : s ≤ 1) (hb0 : 0 ≤ b) (hb1 : b ≤ 1)
    (hp0 : 0 ≤ p) (hp1 : p ≤ 1) :
    0 ≤ compositeScore w s b p ∧ compositeScore w s b p ≤ 1 := by
  unfold compositeScore
  constructor
  · have h1 := mul_nonneg hw1 hs0
    have h2 := mul_nonneg hw2 hb0
    have h3 := mul_nonneg hw3 hp0
    linarith
  · have h1 : w.semantic * s ≤ w.semantic * 1 :=
      mul_le_mul_of_nonneg_left hs1 hw1
    have h2 : w.budget_fit * b ≤ w.budget_fit * 1 :=
      mul_le_mul_of_nonneg_left hb1 hw2
    have h3 : w.price_advantage * p ≤ w.price_advantage * 1 :=
      mul_le_mul_of_nonneg_left hp1 hw3
    nlinarith

/-- Witness for C8 at the default 0.6/0.3/0.1 weights. -/
theorem composite_convex_combination_witness :
    0 ≤ compositeScore defaultWeights (9/10) 1 (1/5) ∧
    compositeScore defaultWeights (9/10) 1 (1/5) ≤ 1 :=
  composite_convex_combination defaultWeights (9/10) 1 (1/5)
    (by norm_num [defaultWeights]) (by norm_num [defaultWeights])
    (by norm_num [defaultWeights]) (by norm_num [defaultWeights])
    (by norm_num) (by norm_num) (by norm_num) (by norm_num)
    (by norm_num) (by norm_num)

/-- Round-half-to-even is within 1/2 of its argument. -/
theorem abs_sub_roundHalfEven (x : ℚ) : |x - (roundHalfEven x : ℚ)| ≤ 1/2 := by
  have h0 : ((⌊x⌋ : ℤ) : ℚ) ≤ x := Int.floor_le x
  have h1 : x < ⌊x⌋ + 1 := Int.lt_floor_add_one x
  unfold roundHalfEven
  split_ifs with ha hb hc <;> rw [abs_le] <;> constructor <;> push_cast <;>
    push_cast at ha <;> linarith

/-- Rounding to 4 decimal places moves a value by at most 5·10⁻⁵. -/
theorem abs_sub_round4 (x : ℚ) : |x - round4 x| ≤ 1/20000 := by
  have h := abs_sub_roundHalfEven (x * 10 ^ 4)
  unfold round4 roundTo
  have heq : x - (roundHalfEven (x * 10 ^ 4) : ℚ) / 10 ^ 4 =
      (x * 10 ^ 4 - (roundHalfEven (x * 10 ^ 4) : ℚ)) / 10 ^ 4 := by
    ring
  rw [heq, abs_div, abs_of_pos (by norm_num : (0:ℚ) < 10 ^ 4),
    div_le_iff₀ (by norm_num : (0:ℚ) < 10 ^ 4)]
  nlinarith [h]

/-- A third catalog item priced 600 (over a 500 budget). -/
def widgetItem : Payload :=
  ⟨3, "Widget", "Gadget", 600, "Electronics", "Beta", 4, 700, 0, false, 0,
   3, "mid", Sum.inr "widget"⟩

/-- A hit on `widgetItem` with the tiny semantic score 1/20000, whose
unrounded composite (0.15003) sits exactly on a threshold that its rounded
composite (0.15) falls below. -/
def hitC10 : Hit := ⟨widgetItem, 1/20000⟩

/-- Ranking `hitC10` with threshold 0.15003 keeps it: its unrounded
composite equals the threshold. -/
theorem rank10_eval :
    Ranker.rank defaultWeights [hitC10] 500 (15003/100000) =
      [mkRecord defaultWeights hitC10 500] := by
  norm_num [Ranker.rank, rawComposite, compositeScore, budgetFit,
    priceAdvantage, defaultWeights, hitC10, widgetItem]

/-- C10: every returned record stems from a hit whose unrounded composite is
at least `min_score` while the reported `composite_score` is that value
rounded to 4 decimals; the reported value can fall below `min_score` by at
most 5·10⁻⁵, and for some inputs it does fall strictly below. -/
theorem rank_threshold_unrounded_vs_rounded (w : ScoringWeights)
    (hits : List Hit) (budget minScore : ℚ) (r : RankedRecord)
    (hr : r ∈ Ranker.rank w hits budget minScore) :
    (∃ h ∈ hits, minScore ≤ rawComposite w h budget ∧
        r.composite_score = round4 (rawComposite w h budget))
    ∧ minScore - r.composite_score ≤ 1/20000
    ∧ ∃ (hits' : List Hit) (b' ms' : ℚ) (r' : RankedRecord),
        r' ∈ Ranker.rank defaultWeights hits' b' ms' ∧
        r'.composite_score < ms' := by
  obtain ⟨h, hmem, hle, rfl⟩ := mem_rank hr
  have hcs : (mkRecord w h budget).composite_score =
      round4 (rawComposite w h budget) := rfl
  refine ⟨⟨h, hmem, hle, hcs⟩, ?_, ?_⟩
  · have habs := abs_sub_round4 (rawComposite w h budget)
    rw [abs_le] at habs
    rw [hcs]
    linarith [habs.1, habs.2]
  · refine ⟨[hitC10], 500, 15003/100000, mkRecord defaultWeights hitC10 500,
      by rw [rank10_eval]; exact List.mem_singleton.mpr rfl, ?_⟩
    norm_num [mkRecord, rawComposite, compositeScore, budgetFit,
      priceAdvantage, defaultWeights, hitC10, widgetItem, round4, roundTo,
      roundHalfEven]

/-- Witness for C10: at the concrete threshold 0.15003 the returned record's
reported composite score is below the threshold by at most 5·10⁻⁵. -/
theorem rank_threshold_unrounded_vs_rounded_witness :
    (15003/100000 : ℚ) -
      (mkRecord defaultWeights hitC10 500).composite_score ≤ 1/20000 :=
  (rank_threshold_unrounded_vs_rounded defaultWeights [hitC10] 500
    (15003/100000) (mkRecord defaultWeights hitC10 500)
    (by rw [rank10_eval]; exact List.mem_singleton.mpr rfl)).2.1
